import Mathlib

/-!
Shallow embedding of the IBKR MCP gateway bridge
(`ibkr_fast_mcp_server.py`) and the retry helper (`fs_agent.py`).

Conventions of the embedding:
* Python `dict`s become association lists with insert-or-overwrite update.
* Python `float` values are carried as `Rat`; no claim here depends on
  floating-point rounding, only on equality, zero-testing (Python
  truthiness of `0.0`) and pass-through of values.
* The callback methods of `IBKRConnection` become a single step function
  `handleEvent : ConnState → Event → ConnState`; the event-draining
  thread applying callbacks in sequence is `processEvents` (a fold).
* `threading.Event` is the `dataReceived : Bool` field plus the
  `eventWait` timing model: `wait timeout` returns after
  `min signalTime timeout` units when the flag is set at `signalTime`,
  and after exactly `timeout` units when it is never set.
* Tool operations are functions from the pre-state and the timed list of
  callback events arriving during the wait to an elapsed time, a final
  state and a result value; the `{error: ...}` dictionaries the Python
  code returns become the `ToolResult.err` constructor.
-/

/-- Insert-or-overwrite update of an association list (Python `d[k] = v`). -/
def updateAssoc {K V : Type} [DecidableEq K] (l : List (K × V)) (k : K) (v : V) :
    List (K × V) :=
  match l with
  | [] => [(k, v)]
  | (k0, v0) :: rest =>
    if k0 = k then (k, v) :: rest else (k0, v0) :: updateAssoc rest k v

/-- Lookup in an association list (Python `d.get(k)`). -/
def lookupAssoc {K V : Type} [DecidableEq K] (l : List (K × V)) (k : K) : Option V :=
  match l with
  | [] => none
  | (k0, v0) :: rest => if k0 = k then some v0 else lookupAssoc rest k

/-- Removal from an association list (Python `del d[k]`, also total when absent). -/
def removeAssoc {K V : Type} [DecidableEq K] (l : List (K × V)) (k : K) :
    List (K × V) :=
  match l with
  | [] => []
  | (k0, v0) :: rest =>
    if k0 = k then removeAssoc rest k else (k0, v0) :: removeAssoc rest k

/-- Contract fields the server fills in (`Contract()` construction sites). -/
structure ContractData where
  symbol : String
  secType : String
  exchange : String
  currency : String
deriving DecidableEq

/-- Order fields the server fills in (`Order()` construction in `place_order`);
`lmtPrice = none` models the attribute never being assigned. -/
structure OrderData where
  action : String
  orderType : String
  totalQuantity : Nat
  lmtPrice : Option Rat
deriving DecidableEq

/-- Entry of `self.positions` built by the `position` callback. -/
structure PositionRec where
  account : String
  symbol : String
  secType : String
  exchange : String
  position : Rat
  avgCost : Rat
  marketValue : Rat
deriving DecidableEq

/-- Entry of `self.account_info` built by the `accountSummary` callback. -/
structure AccountField where
  value : String
  currency : String
deriving DecidableEq

/-- Entry of `self.orders`: the `orderStatus` and `openOrder` callbacks each
store a dict of a different shape under the same orderId key. -/
inductive OrderRec where
  | statusRec (orderId : Nat) (status : String)
      (filled remaining avgFillPrice lastFillPrice : Rat)
  | openRec (orderId : Nat) (symbol secType exchange action orderType : String)
      (totalQuantity : Rat) (lmtPrice auxPrice : Option Rat) (status : String)
deriving DecidableEq

/-- Entry of `self.historical_data[reqId]` built by `historicalData`. -/
structure BarRec where
  date : String
  openP : Rat
  highP : Rat
  lowP : Rat
  closeP : Rat
  volume : Rat
deriving DecidableEq

/-- The mutable state of one `IBKRConnection` object: the fields assigned in
`IBKRConnection.__init__` (`data_received` is the internal flag of the
`threading.Event`). -/
structure ConnState where
  nextOrderId : Option Nat
  positions : List (String × PositionRec)
  account_info : List (String × AccountField)
  market_data : List (Nat × List (String × Rat))
  orders : List (Nat × OrderRec)
  historical_data : List (Nat × List BarRec)
  connected : Bool
  dataReceived : Bool
deriving DecidableEq

/-- The callback events the gateway can deliver, one constructor per
`IBKRConnection` callback method. -/
inductive Event where
  | errorEv (reqId : Int) (errorCode : Int) (errorString : String)
  | nextValidId (orderId : Nat)
  | connectAck
  | connectionClosed
  | position (account : String) (c : ContractData) (pos avgCost : Rat)
  | positionEnd
  | accountSummary (reqId : Nat) (account tag value currency : String)
  | accountSummaryEnd (reqId : Nat)
  | tickPrice (reqId : Nat) (tickType : String) (price : Rat)
  | orderStatus (orderId : Nat) (status : String)
      (filled remaining avgFillPrice lastFillPrice : Rat)
  | openOrder (orderId : Nat) (c : ContractData) (o : OrderData)
      (auxPrice : Option Rat) (status : String)
  | openOrderEnd
  | historicalData (reqId : Nat) (bar : BarRec)
  | historicalDataEnd (reqId : Nat)
deriving DecidableEq

/-- Composite key used by the `position` callback:
`f"{contract.symbol}-{contract.secType}-{contract.exchange}"`. -/
def positionKey (c : ContractData) : String :=
  c.symbol ++ "-" ++ c.secType ++ "-" ++ c.exchange

/-- One callback dispatch: each arm is the body of the corresponding
`IBKRConnection` method (logging omitted; it mutates nothing). -/
def handleEvent (s : ConnState) (e : Event) : ConnState :=
  match e with
  | .errorEv _ _ _ => s
  | .nextValidId oid => { s with nextOrderId := some oid, connected := true }
  | .connectAck => s
  | .connectionClosed => { s with connected := false }
  | .position account c pos avgCost =>
    let pr : PositionRec :=
      { account := account, symbol := c.symbol, secType := c.secType,
        exchange := c.exchange, position := pos, avgCost := avgCost,
        marketValue := pos * avgCost }
    { s with positions := updateAssoc s.positions (positionKey c) pr }
  | .positionEnd => { s with dataReceived := true }
  | .accountSummary _ _ tag value currency =>
    let af : AccountField := { value := value, currency := currency }
    { s with account_info := updateAssoc s.account_info tag af }
  | .accountSummaryEnd _ => { s with dataReceived := true }
  | .tickPrice reqId tickType price =>
    let inner := (lookupAssoc s.market_data reqId).getD []
    let md := updateAssoc s.market_data reqId (updateAssoc inner tickType price)
    { s with market_data := md }
  | .orderStatus oid status filled remaining avgFillPrice lastFillPrice =>
    let r : OrderRec := .statusRec oid status filled remaining avgFillPrice lastFillPrice
    { s with orders := updateAssoc s.orders oid r }
  | .openOrder oid c o auxPrice status =>
    let r : OrderRec :=
      .openRec oid c.symbol c.secType c.exchange o.action o.orderType
        (o.totalQuantity : Rat) o.lmtPrice auxPrice status
    { s with orders := updateAssoc s.orders oid r }
  | .openOrderEnd => { s with dataReceived := true }
  | .historicalData reqId bar =>
    let bars := (lookupAssoc s.historical_data reqId).getD []
    { s with historical_data := updateAssoc s.historical_data reqId (bars ++ [bar]) }
  | .historicalDataEnd _ => { s with dataReceived := true }

/-- The draining thread: callbacks applied in arrival order. -/
def processEvents (s : ConnState) (evs : List Event) : ConnState :=
  evs.foldl handleEvent s

/-- Events whose handler calls `self.data_received.set()` (note that each
`...End` callback ignores its request id when signalling, exactly as the
Python handlers do). -/
def isTerminal (e : Event) : Bool :=
  match e with
  | .positionEnd => true
  | .accountSummaryEnd _ => true
  | .openOrderEnd => true
  | .historicalDataEnd _ => true
  | _ => false

/-- Arrival times of the signalling events in a timed callback trace. -/
def terminalTimes (evs : List (Nat × Event)) : List Nat :=
  (evs.filter (fun p => isTerminal p.2)).map (fun p => p.1)

/-- The time at which `data_received.set()` first runs, if ever. -/
def firstSignalTime (evs : List (Nat × Event)) : Option Nat :=
  (terminalTimes evs).min?

/-- Model of `threading.Event.wait(timeout)`: elapsed time and the flag value
returned (returns at the signal if it comes in time, else at the timeout). -/
def eventWait (timeout : Nat) (signalAt : Option Nat) : Nat × Bool :=
  match signalAt with
  | some t => if t ≤ timeout then (t, true) else (timeout, false)
  | none => (timeout, false)

/-- Events that have arrived (hence been dispatched) by time `t`. -/
def eventsUpTo (t : Nat) (evs : List (Nat × Event)) : List Event :=
  (evs.filter (fun p => p.1 ≤ t)).map (fun p => p.2)

/-- Result shape of a tool operation: the success dictionary or the
`{"error": str(e)}` dictionary built in the `except` arm. -/
inductive ToolResult (P : Type) where
  | ok (payload : P)
  | err (msg : String)
deriving DecidableEq

/-- Whether a tool result is the error-shaped dictionary. -/
def ToolResult.isError {P : Type} : ToolResult P → Bool
  | .ok _ => false
  | .err _ => true

/-- Outcome of one tool-operation run: how long the bounded wait took, the
connection state at the moment the result is read, and the result. -/
structure ToolRun (P : Type) where
  elapsed : Nat
  finalState : ConnState
  result : ToolResult P
deriving DecidableEq

/-- Shared wait discipline of the data-reading tools: from the cleared
state `s1`, the draining thread applies the callbacks that arrive while
`data_received.wait(timeout)` blocks; the wait ends at the signal or at
the timeout, whichever is first. -/
def runDrain (s1 : ConnState) (timeout : Nat) (evs : List (Nat × Event)) :
    Nat × ConnState :=
  let waitEnd :=
    match firstSignalTime evs with
    | some t => min t timeout
    | none => timeout
  (waitEnd, processEvents s1 (eventsUpTo waitEnd evs))

/-- Model of `get_positions`: clears `positions` and the event flag, requests a
snapshot, waits up to 10, returns the (possibly partial) positions map. -/
def get_positions (s : ConnState) (evs : List (Nat × Event)) :
    ToolRun (List (String × PositionRec)) :=
  let s1 := { s with positions := [], dataReceived := false }
  let r := runDrain s1 10 evs
  { elapsed := r.1, finalState := r.2, result := .ok r.2.positions }

/-- Model of `get_account_summary`: clears `account_info` and the event flag,
requests the tag set under reqId 9001, waits up to 10, returns the map. -/
def get_account_summary (s : ConnState) (evs : List (Nat × Event)) :
    ToolRun (List (String × AccountField)) :=
  let s1 := { s with account_info := [], dataReceived := false }
  let r := runDrain s1 10 evs
  { elapsed := r.1, finalState := r.2, result := .ok r.2.account_info }

/-- Payload of the two order-listing tools: the orders map plus its size
(`len(client.orders)`). -/
structure OrdersPayload where
  orders : List (Nat × OrderRec)
  total : Nat
deriving DecidableEq

/-- Model of `get_open_orders`: clears `orders` and the event flag, calls
`reqOpenOrders`, waits up to 10, returns the orders map and its size. -/
def get_open_orders (s : ConnState) (evs : List (Nat × Event)) :
    ToolRun OrdersPayload :=
  let s1 := { s with orders := [], dataReceived := false }
  let r := runDrain s1 10 evs
  { elapsed := r.1, finalState := r.2,
    result := .ok { orders := r.2.orders, total := r.2.orders.length } }

/-- Model of `get_all_orders`: identical to `get_open_orders` except that it sends
`reqAllOpenOrders`; the request sent does not feed back into the state
model, so the state/result discipline is the same. -/
def get_all_orders (s : ConnState) (evs : List (Nat × Event)) :
    ToolRun OrdersPayload :=
  let s1 := { s with orders := [], dataReceived := false }
  let r := runDrain s1 10 evs
  { elapsed := r.1, finalState := r.2,
    result := .ok { orders := r.2.orders, total := r.2.orders.length } }

/-- Payload of `get_historical_data`: the bar list under the fixed reqId
2001 (default `[]`) and its length (`bars_count`). -/
structure HistPayload where
  bars : List BarRec
  bars_count : Nat
deriving DecidableEq

/-- The fixed request id used by `get_historical_data`. -/
def histReqId : Nat := 2001

/-- Model of `get_historical_data`: deletes any previous bar list under reqId 2001,
clears the event flag, requests bars, waits up to 15, and returns the
accumulated bars (possibly truncated at the timeout). -/
def get_historical_data (s : ConnState) (evs : List (Nat × Event)) :
    ToolRun HistPayload :=
  let s1 := { s with historical_data := removeAssoc s.historical_data histReqId,
                     dataReceived := false }
  let r := runDrain s1 15 evs
  let bars := (lookupAssoc r.2.historical_data histReqId).getD []
  { elapsed := r.1, finalState := r.2,
    result := .ok { bars := bars, bars_count := bars.length } }

/-- Python `str.upper()` (characterwise, which matches it on the ASCII
symbols/actions/order types involved). -/
def upperString (s : String) : String :=
  ⟨s.data.map Char.toUpper⟩

/-- Arguments of the `place_order` tool (defaults as in the Python
signature; `limit_price = none` models the `None` default). -/
structure PlaceOrderArgs where
  symbol : String
  action : String
  quantity : Nat
  order_type : String
  limit_price : Option Rat
  exchange : String
  sec_type : String
deriving DecidableEq

/-- The acknowledgement dictionary `place_order` returns on success. -/
structure OrderAck where
  order_id : Nat
  symbol : String
  action : String
  quantity : Nat
  order_type : String
  limit_price : Option Rat
  status : String
deriving DecidableEq

/-- One `client.placeOrder(order_id, contract, order)` call. -/
structure SubmittedOrder where
  orderId : Nat
  contract : ContractData
  order : OrderData
deriving DecidableEq

/-- Python truthiness of the `limit_price: Optional[float]` argument:
`None` and `0.0` are falsy, every other value truthy. -/
def floatTruthy (p : Option Rat) : Bool :=
  match p with
  | none => false
  | some q => decide (q ≠ 0)

/-- Outcome of a `place_order` run: the connection state afterwards, the
orders actually submitted to the gateway, and the returned dictionary. -/
structure PlaceRun where
  finalState : ConnState
  submitted : List SubmittedOrder
  result : ToolResult OrderAck
deriving DecidableEq

/-- Model of `place_order`: guard on `nextOrderId is None`, contract and order
construction (the `lmtPrice` attribute is assigned only when
`order_type.upper() == "LMT" and limit_price` is truthy), submission under
the current id, local increment of the id, and the echoed acknowledgement. -/
def place_order (s : ConnState) (a : PlaceOrderArgs) : PlaceRun :=
  match s.nextOrderId with
  | none =>
    { finalState := s, submitted := [],
      result := .err ("No valid order ID available") }
  | some oid =>
    let contract : ContractData :=
      { symbol := upperString a.symbol, secType := a.sec_type,
        exchange := a.exchange, currency := "USD" }
    let lmt : Option Rat :=
      if upperString a.order_type = "LMT" && floatTruthy a.limit_price then
        a.limit_price
      else none
    let order : OrderData :=
      { action := upperString a.action, orderType := upperString a.order_type,
        totalQuantity := a.quantity, lmtPrice := lmt }
    let ack : OrderAck :=
      { order_id := oid, symbol := a.symbol, action := a.action,
        quantity := a.quantity, order_type := a.order_type,
        limit_price := a.limit_price, status := "submitted" }
    { finalState := { s with nextOrderId := some (oid + 1) },
      submitted := [{ orderId := oid, contract := contract, order := order }],
      result := .ok ack }

/-- Behaviour of one endpoint during a connection attempt:
`raises` models `ibkr_client.connect(...)` (or thread start) throwing;
`connects t` models `connected` becoming true after `t` time-units so the
poll succeeds exactly when `t` is below the 30-unit bound. -/
inductive AttemptOutcome where
  | raises (msg : String)
  | connects (t : Nat)
deriving DecidableEq

/-- The poll bound of `get_ibkr_connection` (`timeout = 30`). -/
def connectTimeout : Nat := 30

/-- Whether one attempt fails (exception, or the poll expires first). -/
def attemptFails (o : AttemptOutcome) : Bool :=
  match o with
  | .raises _ => true
  | .connects t => decide (connectTimeout ≤ t)

/-- The observable calls `get_ibkr_connection` makes on the client while
iterating candidates. -/
inductive AcqAction where
  | connectAttempt (port : Nat)
  | disconnectCall (port : Nat)
deriving DecidableEq

/-- How an acquire run ends: reuse of the already-connected client, a fresh
connection on some port, or the raised `ConnectionError`. -/
inductive AcqOutcome where
  | reusedExisting
  | freshConnection (port : Nat)
  | connectionError (msg : String)
deriving DecidableEq

/-- Trace and outcome of one `get_ibkr_connection` run. -/
structure AcqResult where
  trace : List AcqAction
  outcome : AcqOutcome
deriving DecidableEq

/-- The candidate list of `get_ibkr_connection`, in declared order. -/
def candidates : List (Nat × String) := [(4001, "IB Gateway"), (7497, "TWS Paper Trading")]

/-- Message of the `ConnectionError` raised when every candidate fails. -/
def connErrMsg : String :=
  "Failed to connect to IBKR. Make sure TWS or IB Gateway is running and API connections are enabled."

/-- The `for port, name in [...]` loop body of `get_ibkr_connection`:
on an exception the loop just logs and moves on (no disconnect); on a poll
expiry it disconnects and moves on; on success it stops iterating. -/
def tryCandidates (env : Nat → AttemptOutcome) :
    List (Nat × String) → AcqResult
  | [] => { trace := [], outcome := .connectionError connErrMsg }
  | (port, _) :: rest =>
    match env port with
    | .raises _ =>
      let r := tryCandidates env rest
      { trace := .connectAttempt port :: r.trace, outcome := r.outcome }
    | .connects t =>
      if t < connectTimeout then
        { trace := [.connectAttempt port], outcome := .freshConnection port }
      else
        let r := tryCandidates env rest
        { trace := .connectAttempt port :: .disconnectCall port :: r.trace,
          outcome := r.outcome }

/-- Model of `get_ibkr_connection`: if a connected client exists it is returned at
once (no attempt); otherwise a fresh client is created and the candidate
loop runs.  `existing` is the state of the global `ibkr_client`
(`none` = no client yet, `some b` = a client whose `connected` flag is `b`). -/
def get_ibkr_connection (existing : Option Bool) (env : Nat → AttemptOutcome) :
    AcqResult :=
  match existing with
  | some true => { trace := [], outcome := .reusedExisting }
  | _ => tryCandidates env candidates

/-- The ports of the connection attempts in an acquire trace, in order. -/
def attemptPorts (tr : List AcqAction) : List Nat :=
  tr.filterMap (fun a =>
    match a with
    | .connectAttempt p => some p
    | .disconnectCall _ => none)

/-- Predicate `startsWithList pat s`: `pat` is an initial segment of `s`. -/
def startsWithList : List Char → List Char → Bool
  | [], _ => true
  | _ :: _, [] => false
  | a :: as, b :: bs => a = b && startsWithList as bs

/-- Predicate `containsSub pat s`: `pat` occurs contiguously inside `s`. -/
def containsSub (pat : List Char) : List Char → Bool
  | [] => pat.isEmpty
  | c :: rest => startsWithList pat (c :: rest) || containsSub pat rest

/-- The guard `"overloaded" in str(e).lower()` of `retry_with_backoff`
(lower-casing modelled characterwise, which matches `str.lower` on the
ASCII messages involved). -/
def isOverloadedMsg (e : String) : Bool :=
  containsSub ("overloaded".data) (e.data.map Char.toLower)

/-- How a `retry_with_backoff` run ends: `func` returned a value, an
exception was re-raised, or (only when `max_retries = 0`) the loop body
never ran and the Python function fell through returning `None`. -/
inductive RetryOutcome (A : Type) where
  | value (a : A)
  | raised (e : String)
  | noneReturned
deriving DecidableEq

/-- Observable behaviour of a `retry_with_backoff` run: how many times
`func` was invoked, the sleeps performed (in order), and the outcome. -/
structure RetryTrace (A : Type) where
  calls : Nat
  delays : List Nat
  outcome : RetryOutcome A
deriving DecidableEq

/-- The `for attempt in range(max_retries)` loop of `retry_with_backoff`,
entered at iteration `attempt`; `f i` is the outcome of the `i`-th
invocation of `func` (`.ok` a return value, `.error` the message of the
exception it raised). -/
def retryFrom {A : Type} (f : Nat → Except String A) (maxRetries baseDelay : Nat) :
    Nat → RetryTrace A
  | attempt =>
    if _h : attempt < maxRetries then
      match f attempt with
      | .ok a => { calls := 1, delays := [], outcome := .value a }
      | .error e =>
        if isOverloadedMsg e && decide (attempt < maxRetries - 1) then
          let r := retryFrom f maxRetries baseDelay (attempt + 1)
          { calls := r.calls + 1,
            delays := baseDelay * 2 ^ attempt :: r.delays,
            outcome := r.outcome }
        else
          { calls := 1, delays := [], outcome := .raised e }
    else
      { calls := 0, delays := [], outcome := .noneReturned }
termination_by attempt => maxRetries - attempt

/-- Model of `retry_with_backoff(func, max_retries, base_delay)`: the loop from
iteration 0. -/
def retry_with_backoff {A : Type} (f : Nat → Except String A)
    (maxRetries baseDelay : Nat) : RetryTrace A :=
  retryFrom f maxRetries baseDelay 0

/-! ## Helper lemmas -/

theorem filter_terminal_nil :
    ∀ (evs : List (Nat × Event)), (∀ p ∈ evs, isTerminal p.2 = false) →
      evs.filter (fun p => isTerminal p.2) = [] := by
  intro evs
  induction evs with
  | nil => intro _; rfl
  | cons q rest ih =>
    intro h
    have hq : isTerminal q.2 = false := h q (by simp)
    have hr : ∀ p ∈ rest, isTerminal p.2 = false := fun p hp => h p (by simp [hp])
    simp [List.filter_cons, hq, ih hr]

theorem firstSignalTime_eq_none (evs : List (Nat × Event))
    (h : ∀ p ∈ evs, isTerminal p.2 = false) : firstSignalTime evs = none := by
  simp [firstSignalTime, terminalTimes, filter_terminal_nil evs h]

theorem lookupAssoc_updateAssoc_ne {K V : Type} [DecidableEq K]
    (l : List (K × V)) (k k2 : K) (v : V) (h : k2 ≠ k) :
    lookupAssoc (updateAssoc l k v) k2 = lookupAssoc l k2 := by
  induction l with
  | nil => simp [updateAssoc, lookupAssoc, Ne.symm h]
  | cons p rest ih =>
    by_cases hk : p.1 = k
    · simp [updateAssoc, lookupAssoc, hk, h, Ne.symm h]
    · simp [updateAssoc, lookupAssoc, hk]
      by_cases hk2 : p.1 = k2
      · simp [hk2, lookupAssoc]
      · simp [lookupAssoc, hk2, ih]

theorem lookupAssoc_updateAssoc_self {K V : Type} [DecidableEq K]
    (l : List (K × V)) (k : K) (v : V) :
    lookupAssoc (updateAssoc l k v) k = some v := by
  induction l with
  | nil => simp [updateAssoc, lookupAssoc]
  | cons p rest ih =>
    by_cases hk : p.1 = k
    · simp [updateAssoc, lookupAssoc, hk]
    · simp [updateAssoc, lookupAssoc, hk, ih]

/-! ## Claims -/

/-- Claim C4: an `error` callback, whatever its numeric code (informational
2104/2106/2158/10089 or any other), leaves the whole connection state
unchanged: `connected`, `nextOrderId`, every data collection and the
pending-request completion flag are identical before and after, so an
error event never resolves or aborts a pending request. -/
theorem error_event_is_frame (s : ConnState) (reqId errorCode : Int)
    (errorString : String) :
    handleEvent s (.errorEv reqId errorCode errorString) = s := rfl

/-- Claim C3: the `connected` flag becomes true (from false) only through the
`nextValidId` event, which always sets it; `connectAck` and `error`
events of any code never change `connected`; and `connectionClosed` is
the only event that resets `connected` from true to false. -/
theorem connected_flag_transitions (s : ConnState) (e : Event) :
    (s.connected = false → (handleEvent s e).connected = true →
      ∃ oid, e = .nextValidId oid)
    ∧ (∀ oid, (handleEvent s (.nextValidId oid)).connected = true)
    ∧ (∀ reqId errorCode errorString,
        (handleEvent s (.errorEv reqId errorCode errorString)).connected = s.connected)
    ∧ ((handleEvent s .connectAck).connected = s.connected)
    ∧ (s.connected = true → (handleEvent s e).connected = false →
      e = .connectionClosed) := by
  refine ⟨?_, ?_, ?_, ?_, ?_⟩
  · intro hF hT
    cases e <;> simp_all [handleEvent]
  · intro oid; simp [handleEvent]
  · intro reqId errorCode errorString; simp [handleEvent]
  · simp [handleEvent]
  · intro hT hF
    cases e <;> simp_all [handleEvent]

/-- Witness for C3 at concrete inputs: `nextValidId 5` flips a fresh
disconnected state to connected, and `connectionClosed` is identified as
the event that dropped a connected state. -/
theorem connected_flag_transitions_witness :
    (∃ oid, Event.nextValidId 5 = Event.nextValidId oid)
    ∧ (Event.connectionClosed = Event.connectionClosed) := by
  have h1 := connected_flag_transitions
    { nextOrderId := none, positions := [], account_info := [], market_data := [],
      orders := [], historical_data := [], connected := false, dataReceived := false }
    (.nextValidId 5)
  have h2 := connected_flag_transitions
    { nextOrderId := some 3, positions := [], account_info := [], market_data := [],
      orders := [], historical_data := [], connected := true, dataReceived := false }
    .connectionClosed
  exact ⟨h1.1 (by decide) (by decide), h2.2.2.2.2 (by decide) (by decide)⟩

/-- Claim C1: for each tool operation that awaits a terminal event
(`get_positions`, `get_account_summary`, `get_open_orders`,
`get_all_orders`, `get_historical_data`), if no terminal event ever
arrives the bounded wait elapses in full (10 units, 15 for historical
bars), the operation completes, and it returns the partial data
accumulated in the shared buffer as an `ok` result — never an
error-shaped result. -/
theorem awaited_ops_timeout_partial_buffer (s : ConnState)
    (evs : List (Nat × Event)) (hNoTerm : ∀ p ∈ evs, isTerminal p.2 = false) :
    ((get_positions s evs).elapsed = 10
      ∧ (get_positions s evs).result
          = .ok (get_positions s evs).finalState.positions
      ∧ (get_positions s evs).finalState
          = processEvents { s with positions := [], dataReceived := false }
              (eventsUpTo 10 evs)
      ∧ ((get_positions s evs).result).isError = false)
    ∧ ((get_account_summary s evs).elapsed = 10
      ∧ (get_account_summary s evs).result
          = .ok (get_account_summary s evs).finalState.account_info
      ∧ (get_account_summary s evs).finalState
          = processEvents { s with account_info := [], dataReceived := false }
              (eventsUpTo 10 evs)
      ∧ ((get_account_summary s evs).result).isError = false)
    ∧ ((get_open_orders s evs).elapsed = 10
      ∧ (get_open_orders s evs).result
          = .ok { orders := (get_open_orders s evs).finalState.orders,
                  total := (get_open_orders s evs).finalState.orders.length }
      ∧ (get_open_orders s evs).finalState
          = processEvents { s with orders := [], dataReceived := false }
              (eventsUpTo 10 evs)
      ∧ ((get_open_orders s evs).result).isError = false)
    ∧ ((get_all_orders s evs).elapsed = 10
      ∧ (get_all_orders s evs).result
          = .ok { orders := (get_all_orders s evs).finalState.orders,
                  total := (get_all_orders s evs).finalState.orders.length }
      ∧ (get_all_orders s evs).finalState
          = processEvents { s with orders := [], dataReceived := false }
              (eventsUpTo 10 evs)
      ∧ ((get_all_orders s evs).result).isError = false)
    ∧ ((get_historical_data s evs).elapsed = 15
      ∧ (get_historical_data s evs).result
          = .ok { bars := (lookupAssoc
                    (get_historical_data s evs).finalState.historical_data
                    histReqId).getD [],
                  bars_count := ((lookupAssoc
                    (get_historical_data s evs).finalState.historical_data
                    histReqId).getD []).length }
      ∧ (get_historical_data s evs).finalState
          = processEvents
              { s with historical_data := removeAssoc s.historical_data histReqId,
                       dataReceived := false }
              (eventsUpTo 15 evs)
      ∧ ((get_historical_data s evs).result).isError = false) := by
  have hsig := firstSignalTime_eq_none evs hNoTerm
  refine ⟨⟨?_, ?_, ?_, ?_⟩, ⟨?_, ?_, ?_, ?_⟩, ⟨?_, ?_, ?_, ?_⟩,
    ⟨?_, ?_, ?_, ?_⟩, ⟨?_, ?_, ?_, ?_⟩⟩ <;>
    simp [get_positions, get_account_summary, get_open_orders, get_all_orders,
      get_historical_data, runDrain, hsig, ToolResult.isError]

/-- Witness for C1: a run in which only a (non-terminal) position event
arrives; every operation completes at its full timeout with an `ok`
result. -/
theorem awaited_ops_timeout_partial_buffer_witness :
    (get_positions
      { nextOrderId := some 1, positions := [], account_info := [],
        market_data := [], orders := [], historical_data := [],
        connected := true, dataReceived := false }
      [(3, .position ("U1")
          ({ symbol := "AAPL", secType := "STK", exchange := "SMART",
             currency := "USD" }) 2 5)]).elapsed = 10
    ∧ ((get_historical_data
      { nextOrderId := some 1, positions := [], account_info := [],
        market_data := [], orders := [], historical_data := [],
        connected := true, dataReceived := false }
      [(3, .position ("U1")
          ({ symbol := "AAPL", secType := "STK", exchange := "SMART",
             currency := "USD" }) 2 5)]).result).isError = false := by
  have h := awaited_ops_timeout_partial_buffer
    { nextOrderId := some 1, positions := [], account_info := [],
      market_data := [], orders := [], historical_data := [],
      connected := true, dataReceived := false }
    [(3, .position ("U1")
        ({ symbol := "AAPL", secType := "STK", exchange := "SMART",
           currency := "USD" }) 2 5)]
    (by decide)
  exact ⟨h.1.1, h.2.2.2.2.2.2.2⟩

/-- Claim C2: with no connected client present and both candidate endpoints
refusing, `get_ibkr_connection` attempts port 4001 then port 7497, each
exactly once and in that order, and ends by raising the `ConnectionError`
whose message tells the operator to ensure the gateway process is running
and API access is enabled. -/
theorem acquire_failover_exhausts_candidates (existing : Option Bool)
    (env : Nat → AttemptOutcome)
    (hex : existing ≠ some true)
    (h1 : attemptFails (env 4001) = true)
    (h2 : attemptFails (env 7497) = true) :
    attemptPorts (get_ibkr_connection existing env).trace = [4001, 7497]
    ∧ (get_ibkr_connection existing env).outcome = .connectionError connErrMsg
    ∧ containsSub
        (("Make sure TWS or IB Gateway is running and API connections are enabled").data)
        connErrMsg.data = true := by
  have hmain : attemptPorts (tryCandidates env candidates).trace = [4001, 7497]
      ∧ (tryCandidates env candidates).outcome = .connectionError connErrMsg := by
    rcases ho1 : env 4001 with m1 | t1
    · rcases ho2 : env 7497 with m2 | t2
      · simp [candidates, tryCandidates, ho1, ho2, attemptPorts]
      · have ht2 : ¬ t2 < connectTimeout := by
          have := h2; rw [ho2] at this; simp [attemptFails] at this; omega
        simp [candidates, tryCandidates, ho1, ho2, ht2, attemptPorts]
    · have ht1 : ¬ t1 < connectTimeout := by
        have := h1; rw [ho1] at this; simp [attemptFails] at this; omega
      rcases ho2 : env 7497 with m2 | t2
      · simp [candidates, tryCandidates, ho1, ho2, ht1, attemptPorts]
      · have ht2 : ¬ t2 < connectTimeout := by
          have := h2; rw [ho2] at this; simp [attemptFails] at this; omega
        simp [candidates, tryCandidates, ho1, ho2, ht1, ht2, attemptPorts]
  rcases existing with _ | b
  · exact ⟨hmain.1, hmain.2, by decide⟩
  · cases b
    · exact ⟨hmain.1, hmain.2, by decide⟩
    · exact absurd rfl hex

/-- Environment in which both candidate ports refuse: 4001 raises from
`connect`, 7497 never becomes connected within the poll bound. -/
def envBothRefuse : Nat → AttemptOutcome :=
  fun p => if p = 4001 then .raises ("Connection refused") else .connects 50

/-- Witness for C2: with no client and `envBothRefuse`, the run attempts
exactly ports 4001 then 7497 and raises the documented `ConnectionError`. -/
theorem acquire_failover_exhausts_candidates_witness :
    attemptPorts (get_ibkr_connection none envBothRefuse).trace = [4001, 7497]
    ∧ (get_ibkr_connection none envBothRefuse).outcome
        = .connectionError connErrMsg := by
  have h := acquire_failover_exhausts_candidates none envBothRefuse
    (by decide) (by decide) (by decide)
  exact ⟨h.1, h.2.1⟩

/-- Environment whose first candidate raises from `connect` while the
second connects immediately. -/
def envFirstRaises : Nat → AttemptOutcome :=
  fun p => if p = 4001 then .raises ("socket error") else .connects 0

/-- Counterexample to C5 as stated: when the attempt on port 4001 fails by
raising a transport exception, the run moves on to port 7497 without ever
calling disconnect on the failed session — so "the operation explicitly
disconnects that session before moving on" is false for the
exception-failure mode. -/
theorem acquire_disconnect_claim_counterexample :
    attemptFails (envFirstRaises 4001) = true
    ∧ AcqAction.connectAttempt 7497 ∈ (get_ibkr_connection none envFirstRaises).trace
    ∧ AcqAction.disconnectCall 4001 ∉ (get_ibkr_connection none envFirstRaises).trace := by
  decide

/-- Claim C5 amended: during candidate iteration, when the bounded poll of
`connected` expires without success the operation explicitly disconnects
that session before attempting the next candidate; but when the attempt
raises a transport exception it moves on to the next candidate without
disconnecting. -/
theorem acquire_disconnect_only_on_poll_expiry (env : Nat → AttemptOutcome)
    (port : Nat) (name : String) (rest : List (Nat × String)) :
    (∀ t, env port = .connects t → connectTimeout ≤ t →
      tryCandidates env ((port, name) :: rest)
        = { trace := .connectAttempt port :: .disconnectCall port ::
              (tryCandidates env rest).trace,
            outcome := (tryCandidates env rest).outcome })
    ∧ (∀ m, env port = .raises m →
      tryCandidates env ((port, name) :: rest)
        = { trace := .connectAttempt port :: (tryCandidates env rest).trace,
            outcome := (tryCandidates env rest).outcome }) := by
  constructor
  · intro t ht hle
    have hnlt : ¬ t < connectTimeout := by omega
    simp [tryCandidates, ht, hnlt]
  · intro m hm
    simp [tryCandidates, hm]

/-- Witness for the amended C5: under `envBothRefuse` restricted to a
singleton candidate list, the poll-expiry failure on 7497 disconnects
before moving on, and the raising failure on 4001 does not. -/
theorem acquire_disconnect_only_on_poll_expiry_witness :
    (tryCandidates envBothRefuse [(7497, "TWS Paper Trading")]
      = { trace := [.connectAttempt 7497, .disconnectCall 7497],
          outcome := .connectionError connErrMsg })
    ∧ (tryCandidates envBothRefuse [(4001, "IB Gateway")]
      = { trace := [.connectAttempt 4001],
          outcome := .connectionError connErrMsg }) := by
  have h1 := acquire_disconnect_only_on_poll_expiry envBothRefuse 7497
    ("TWS Paper Trading") []
  have h2 := acquire_disconnect_only_on_poll_expiry envBothRefuse 4001
    ("IB Gateway") []
  exact ⟨h1.1 50 (by decide) (by decide), h2.2 ("Connection refused") (by decide)⟩

/-- Claim C6: invoking `place_order` while `nextOrderId` is unset returns the
structured `{"error": "No valid order ID available"}` result (a value,
not a raised exception), submits no order, and leaves the connection
state — `nextOrderId` included — unchanged. -/
theorem place_order_requires_valid_order_id (s : ConnState)
    (a : PlaceOrderArgs) (h : s.nextOrderId = none) :
    place_order s a
      = { finalState := s, submitted := [],
          result := .err ("No valid order ID available") } := by
  simp [place_order, h]

/-- Witness for C6 at a fresh (id-less) state and a market order. -/
theorem place_order_requires_valid_order_id_witness :
    place_order
      { nextOrderId := none, positions := [], account_info := [],
        market_data := [], orders := [], historical_data := [],
        connected := true, dataReceived := false }
      { symbol := "AAPL", action := "BUY", quantity := 10,
        order_type := "MKT", limit_price := none,
        exchange := "SMART", sec_type := "STK" }
      = { finalState :=
            { nextOrderId := none, positions := [], account_info := [],
              market_data := [], orders := [], historical_data := [],
              connected := true, dataReceived := false },
          submitted := [],
          result := .err ("No valid order ID available") } :=
  place_order_requires_valid_order_id _ _ (by decide)

/-- Claim C7: a `place_order` call with `orderType = "LMT"` and no
`limit_price` argument submits an order carrying no limit price, and for
every call the `limit_price` field of the returned acknowledgement equals
exactly the `limit_price` argument — the acknowledgement never reports a
price the caller did not give. -/
theorem place_order_limit_price_roundtrip (s : ConnState)
    (a : PlaceOrderArgs) :
    (upperString a.order_type = "LMT" → a.limit_price = none →
      ∀ sub ∈ (place_order s a).submitted, sub.order.lmtPrice = none)
    ∧ (∀ ack, (place_order s a).result = .ok ack →
        ack.limit_price = a.limit_price) := by
  constructor
  · intro hT hP sub hsub
    rcases hs : s.nextOrderId with _ | oid
    · simp [place_order, hs] at hsub
    · simp [place_order, hs, hT, hP, floatTruthy] at hsub
      simp [hsub]
  · intro ack hack
    rcases hs : s.nextOrderId with _ | oid
    · simp [place_order, hs] at hack
    · simp [place_order, hs] at hack
      simp [← hack]

/-- Witness for C7: a limit order for 3 AAPL with no price submits with
`lmtPrice` unset, and the acknowledgement echoes the absent price. -/
theorem place_order_limit_price_roundtrip_witness :
    (∀ sub ∈ (place_order
      { nextOrderId := some 7, positions := [], account_info := [],
        market_data := [], orders := [], historical_data := [],
        connected := true, dataReceived := false }
      { symbol := "aapl", action := "buy", quantity := 3,
        order_type := "Lmt", limit_price := none,
        exchange := "SMART", sec_type := "STK" }).submitted,
      sub.order.lmtPrice = none)
    ∧ (∀ ack, (place_order
      { nextOrderId := some 7, positions := [], account_info := [],
        market_data := [], orders := [], historical_data := [],
        connected := true, dataReceived := false }
      { symbol := "aapl", action := "buy", quantity := 3,
        order_type := "Lmt", limit_price := none,
        exchange := "SMART", sec_type := "STK" }).result = .ok ack →
      ack.limit_price = none) := by
  have h := place_order_limit_price_roundtrip
    { nextOrderId := some 7, positions := [], account_info := [],
      market_data := [], orders := [], historical_data := [],
      connected := true, dataReceived := false }
    { symbol := "aapl", action := "buy", quantity := 3,
      order_type := "Lmt", limit_price := none,
      exchange := "SMART", sec_type := "STK" }
  exact ⟨h.1 (by decide) (by decide), h.2⟩

/-- Claim C10: with `orderType` uppercasing to `"LMT"` and `limit_price = 0.0`,
the zero price is falsy, so the submitted order and the post-state are
exactly those of the same call with no `limit_price` at all, while the
returned acknowledgement still reports `limit_price = 0.0`: a zero limit
price is indistinguishable from an absent one on the gateway side. -/
theorem place_order_zero_limit_price (s : ConnState) (a : PlaceOrderArgs)
    (hT : upperString a.order_type = "LMT") (hP : a.limit_price = some 0) :
    (place_order s a).submitted
        = (place_order s { a with limit_price := none }).submitted
    ∧ (place_order s a).finalState
        = (place_order s { a with limit_price := none }).finalState
    ∧ (∀ ack, (place_order s a).result = .ok ack →
        ack.limit_price = some 0) := by
  rcases hs : s.nextOrderId with _ | oid
  · refine ⟨by simp [place_order, hs], by simp [place_order, hs], ?_⟩
    intro ack hack
    simp [place_order, hs] at hack
  · refine ⟨by simp [place_order, hs, hT, hP, floatTruthy],
      by simp [place_order, hs], ?_⟩
    intro ack hack
    simp [place_order, hs] at hack
    simp [← hack, hP]

/-- Witness for C10: a "Lmt" buy with price 0 submits the identical order
(no `lmtPrice`) as the priceless call, yet acknowledges price 0. -/
theorem place_order_zero_limit_price_witness :
    (place_order
      { nextOrderId := some 7, positions := [], account_info := [],
        market_data := [], orders := [], historical_data := [],
        connected := true, dataReceived := false }
      { symbol := "aapl", action := "buy", quantity := 3,
        order_type := "Lmt", limit_price := some 0,
        exchange := "SMART", sec_type := "STK" }).submitted
      = (place_order
      { nextOrderId := some 7, positions := [], account_info := [],
        market_data := [], orders := [], historical_data := [],
        connected := true, dataReceived := false }
      { symbol := "aapl", action := "buy", quantity := 3,
        order_type := "Lmt", limit_price := none,
        exchange := "SMART", sec_type := "STK" }).submitted := by
  have h := place_order_zero_limit_price
    { nextOrderId := some 7, positions := [], account_info := [],
      market_data := [], orders := [], historical_data := [],
      connected := true, dataReceived := false }
    { symbol := "aapl", action := "buy", quantity := 3,
      order_type := "Lmt", limit_price := some 0,
      exchange := "SMART", sec_type := "STK" }
    (by decide) (by decide)
  exact h.1

/-- A connection state holding one existing order record under id 5. -/
def stateWithOrder5 : ConnState :=
  { nextOrderId := some 6, positions := [], account_info := [],
    market_data := [],
    orders := [(5, .statusRec 5 ("Filled") 10 0 101 101)],
    historical_data := [], connected := true, dataReceived := false }

/-- Counterexample to C8 as stated: `get_open_orders` wholesale-clears the
order map (`client.orders.clear()`) at the start of a refresh — an
existing record under id 5 is gone from both the final state and the
returned payload of a refresh during which no events arrive, so the map
does not persist across refresh cycles. -/
theorem orders_map_cleared_counterexample :
    stateWithOrder5.orders ≠ []
    ∧ (get_open_orders stateWithOrder5 []).finalState.orders = []
    ∧ (get_open_orders stateWithOrder5 []).result
        = .ok { orders := [], total := 0 }
    ∧ (get_all_orders stateWithOrder5 []).finalState.orders = [] := by
  refine ⟨by decide, ?_, ?_, ?_⟩ <;> rfl

/-- Claim C8 amended: the `orderStatus` and `openOrder` callbacks update the
order map in place, keyed by orderId — the updated key maps to the new
record and every other key is untouched — but the map does not persist
across refresh cycles: `get_open_orders` and `get_all_orders` wholesale-
clear the order map before requesting fresh data. -/
theorem orders_map_update_in_place_but_cleared_on_refresh
    (s : ConnState) (oid k : Nat) (status : String)
    (filled remaining avgFillPrice lastFillPrice : Rat)
    (c : ContractData) (o : OrderData) (auxPrice : Option Rat)
    (ostatus : String) :
    (lookupAssoc
        (handleEvent s (.orderStatus oid status filled remaining
          avgFillPrice lastFillPrice)).orders oid
      = some (.statusRec oid status filled remaining avgFillPrice lastFillPrice))
    ∧ (k ≠ oid →
      lookupAssoc
          (handleEvent s (.orderStatus oid status filled remaining
            avgFillPrice lastFillPrice)).orders k
        = lookupAssoc s.orders k)
    ∧ (lookupAssoc
        (handleEvent s (.openOrder oid c o auxPrice ostatus)).orders oid
      = some (.openRec oid c.symbol c.secType c.exchange o.action
          o.orderType (o.totalQuantity : Rat) o.lmtPrice auxPrice ostatus))
    ∧ (k ≠ oid →
      lookupAssoc
          (handleEvent s (.openOrder oid c o auxPrice ostatus)).orders k
        = lookupAssoc s.orders k)
    ∧ ((get_open_orders s []).finalState.orders = [])
    ∧ ((get_all_orders s []).finalState.orders = []) := by
  refine ⟨?_, ?_, ?_, ?_, ?_, ?_⟩
  · simp [handleEvent, lookupAssoc_updateAssoc_self]
  · intro hk
    simp [handleEvent, lookupAssoc_updateAssoc_ne _ _ _ _ hk]
  · simp [handleEvent, lookupAssoc_updateAssoc_self]
  · intro hk
    simp [handleEvent, lookupAssoc_updateAssoc_ne _ _ _ _ hk]
  · rfl
  · rfl

/-- Witness for the amended C8: an `orderStatus` event for id 5 updates
key 5 in place and leaves key 4 alone; a refresh with no events leaves an
empty map. -/
theorem orders_map_update_in_place_but_cleared_on_refresh_witness :
    (lookupAssoc
        (handleEvent stateWithOrder5
          (.orderStatus 5 ("Cancelled") 0 10 0 0)).orders 5
      = some (.statusRec 5 ("Cancelled") 0 10 0 0))
    ∧ (lookupAssoc
        (handleEvent stateWithOrder5
          (.orderStatus 5 ("Cancelled") 0 10 0 0)).orders 4
      = lookupAssoc stateWithOrder5.orders 4)
    ∧ ((get_open_orders stateWithOrder5 []).finalState.orders = []) := by
  have h := orders_map_update_in_place_but_cleared_on_refresh
    stateWithOrder5 5 4 ("Cancelled") 0 10 0 0
    ({ symbol := "AAPL", secType := "STK", exchange := "SMART",
       currency := "USD" })
    ({ action := "BUY", orderType := "MKT", totalQuantity := 1,
       lmtPrice := none })
    none ("Unknown")
  exact ⟨h.1, h.2.1 (by decide), h.2.2.2.2.1⟩

theorem retryFrom_calls_le {A : Type} (f : Nat → Except String A)
    (maxRetries baseDelay : Nat) :
    ∀ n i, maxRetries - i ≤ n →
      (retryFrom f maxRetries baseDelay i).calls ≤ maxRetries - i := by
  intro n
  induction n with
  | zero =>
    intro i hi
    have hge : ¬ i < maxRetries := by omega
    rw [retryFrom]
    simp [hge]
  | succ n ih =>
    intro i hi
    rw [retryFrom]
    by_cases h : i < maxRetries
    · simp only [h, dite_true]
      cases hf : f i with
      | ok a => simp; omega
      | error e =>
        have hrec := ih (i + 1) (by omega)
        by_cases hov : (isOverloadedMsg e && decide (i < maxRetries - 1)) = true
        · simp [hov]
          omega
        · simp [hov]
          omega
    · simp [h]

/-- Claim C9: `retry_with_backoff(func, max_retries, base_delay)` invokes
`func` at most `max_retries` times; after a failure whose message
contains "overloaded" (case-insensitively) on attempt `i` with
`i < max_retries - 1` it sleeps `base_delay * 2 ^ i` and retries from
attempt `i + 1`; a failure without "overloaded", and the failure of the
final attempt, are re-raised unchanged. -/
theorem retry_with_backoff_spec {A : Type} (f : Nat → Except String A)
    (maxRetries baseDelay i : Nat) :
    (retry_with_backoff f maxRetries baseDelay).calls ≤ maxRetries
    ∧ (∀ e, f i = .error e → isOverloadedMsg e = true → i < maxRetries - 1 →
        retryFrom f maxRetries baseDelay i
          = { calls := (retryFrom f maxRetries baseDelay (i + 1)).calls + 1,
              delays := baseDelay * 2 ^ i
                :: (retryFrom f maxRetries baseDelay (i + 1)).delays,
              outcome := (retryFrom f maxRetries baseDelay (i + 1)).outcome })
    ∧ (∀ e, f i = .error e → isOverloadedMsg e = false → i < maxRetries →
        retryFrom f maxRetries baseDelay i
          = { calls := 1, delays := [], outcome := .raised e })
    ∧ (∀ e, 0 < maxRetries → f (maxRetries - 1) = .error e →
        retryFrom f maxRetries baseDelay (maxRetries - 1)
          = { calls := 1, delays := [], outcome := .raised e }) := by
  refine ⟨?_, ?_, ?_, ?_⟩
  · have h := retryFrom_calls_le f maxRetries baseDelay maxRetries 0 (by omega)
    simpa [retry_with_backoff] using h
  · intro e he hov hlt
    have hi : i < maxRetries := by omega
    rw [retryFrom]
    simp [hi, he, hov, hlt]
  · intro e he hov hi
    rw [retryFrom]
    simp [hi, he, hov]
  · intro e h0 he
    have hi : maxRetries - 1 < maxRetries := by omega
    rw [retryFrom]
    simp [hi, he]

/-- A `func` whose first call fails "overloaded", whose second call fails
with an unrelated message, and which then succeeds. -/
def retrySampleF : Nat → Except String Nat :=
  fun i =>
    if i = 0 then .error ("upstream OVERLOADED, try later")
    else if i = 1 then .error ("boom")
    else .ok 42

/-- Witness for C9 on `retrySampleF`: at most 3 calls out of 3 attempts;
attempt 0 sleeps `1 * 2 ^ 0` and retries; attempt 1's non-overloaded
failure is re-raised unchanged; and with a cap of 2 attempts the final
failure is re-raised. -/
theorem retry_with_backoff_spec_witness :
    (retry_with_backoff retrySampleF 3 1).calls ≤ 3
    ∧ retryFrom retrySampleF 3 1 0
        = { calls := (retryFrom retrySampleF 3 1 1).calls + 1,
            delays := 1 * 2 ^ 0 :: (retryFrom retrySampleF 3 1 1).delays,
            outcome := (retryFrom retrySampleF 3 1 1).outcome }
    ∧ retryFrom retrySampleF 3 1 1
        = { calls := 1, delays := [], outcome := .raised ("boom") }
    ∧ retryFrom retrySampleF 2 1 1
        = { calls := 1, delays := [], outcome := .raised ("boom") } := by
  have h3 := retry_with_backoff_spec retrySampleF 3 1 0
  have h3b := retry_with_backoff_spec retrySampleF 3 1 1
  have h2 := retry_with_backoff_spec retrySampleF 2 1 1
  refine ⟨h3.1, ?_, ?_, ?_⟩
  · exact h3.2.1 ("upstream OVERLOADED, try later") rfl (by decide) (by decide)
  · exact h3b.2.2.1 ("boom") rfl (by decide) (by decide)
  · exact h2.2.2.2 ("boom") (by decide) rfl
